import Mathlib

/-
  Verification of the MachineLearningNotebooks repository specification.

  The repository is a collection of Jupyter notebooks driving a remote
  machine-learning platform through its SDK.  This file gives a shallow
  embedding of the locally-executed logic of the seven notebooks under
  src/:
  - the three compute-target get-or-create variants (try/except on
    ComputeTargetException or KeyError, membership test on
    ws.compute_targets, found-flag with a type check),
  - the polling wait on cluster creation,
  - the updated scoring function run() written by the %%writefile cell of
    the register-model-deploy-local notebook,
  - the gzipped IDX/MNIST binary parser load_data of the Chainer notebook,
  - and, per notebook, an ordered trace of its code-cell statements, over
    which the spec claims about mutation, error handling, waiting and run
    observation are stated.
-/

/-! ## Compute target data model

The workspace compute-target registry is remote state of the external
platform.  Modelled from the spec: a workspace holds a mapping from names
to compute targets (the descriptor carries name, VM size, min/max node
bounds, and the platform type tag that the notebooks inspect via
`type(x) is AmlCompute` or `.type == 'AmlCompute'`). -/

inductive CTType
  | amlCompute
  | aksCompute
  | otherCompute
deriving DecidableEq, Repr

structure ProvisioningConfig where
  vm_size : String
  min_nodes : Nat
  max_nodes : Nat
deriving DecidableEq, Repr

structure ComputeTargetObj where
  ctName : String
  ctType : CTType
  ctConfig : ProvisioningConfig
deriving DecidableEq, Repr

structure Workspace where
  compute_targets : List (String × ComputeTargetObj)
deriving DecidableEq, Repr

def lookupCT (ws : Workspace) (name : String) : Option ComputeTargetObj :=
  match ws.compute_targets.find? (fun p => p.1 = name) with
  | some p => some p.2
  | none => none

/-- Modelled from the spec: ComputeTarget.create provisions an AmlCompute
cluster with the given configuration and registers it in the workspace
under the given name.  The SDK itself is not part of this repository. -/
def createAmlCompute (ws : Workspace) (name : String) (cfg : ProvisioningConfig) :
    ComputeTargetObj × Workspace :=
  let t : ComputeTargetObj := ⟨name, CTType.amlCompute, cfg⟩
  (t, ⟨(name, t) :: ws.compute_targets⟩)

/-- Result of one acquisition step: the compute target bound to the
notebook variable, the workspace afterwards, whether ComputeTarget.create
was invoked, and whether wait_for_completion was invoked. -/
structure AcquireResult where
  target : ComputeTargetObj
  wsAfter : Workspace
  created : Bool
  polled : Bool
deriving DecidableEq, Repr

/-- The try/except get-or-create of the Chainer notebook (and, with
KeyError instead of ComputeTargetException, of the AKS cluster cell of
the data-drift notebook): look the target up by name, and on the
not-found exception create it and wait inside the handler. -/
def tryExceptGetOrCreate (ws : Workspace) (name : String) (cfg : ProvisioningConfig) :
    AcquireResult :=
  match lookupCT ws name with
  | some t => ⟨t, ws, false, false⟩
  | none =>
      let (t, ws2) := createAmlCompute ws name cfg
      ⟨t, ws2, true, true⟩

/-- The try/except get-or-create of the beer forecasting notebook: as
above, but wait_for_completion is called after the try/except block, so
it runs on the reuse path as well. -/
def tryExceptWaitAfterGetOrCreate (ws : Workspace) (name : String) (cfg : ProvisioningConfig) :
    AcquireResult :=
  match lookupCT ws name with
  | some t => ⟨t, ws, false, true⟩
  | none =>
      let (t, ws2) := createAmlCompute ws name cfg
      ⟨t, ws2, true, true⟩

/-- The membership-test get-or-create of the iris batch-inference
notebook and the AmlCompute cell of the data-drift notebook: if the name
is a key of ws.compute_targets the stored target is bound and kept (the
inner AmlCompute type test only selects a print), else the cluster is
created and waited for inside the else branch. -/
def membershipGetOrCreate (ws : Workspace) (name : String) (cfg : ProvisioningConfig) :
    AcquireResult :=
  match lookupCT ws name with
  | some t => ⟨t, ws, false, false⟩
  | none =>
      let (t, ws2) := createAmlCompute ws name cfg
      ⟨t, ws2, true, true⟩

/-- The found-flag get-or-create of the bank-marketing and text-dnn
AutoML notebooks: found is set only when the name is a key of
ws.compute_targets AND the stored target has type AmlCompute; when not
found the cluster is created; wait_for_completion runs unconditionally
after the if blocks. -/
def foundFlagGetOrCreate (ws : Workspace) (name : String) (cfg : ProvisioningConfig) :
    AcquireResult :=
  match lookupCT ws name with
  | some t =>
      if t.ctType = CTType.amlCompute then ⟨t, ws, false, true⟩
      else
        let (t2, ws2) := createAmlCompute ws name cfg
        ⟨t2, ws2, true, true⟩
  | none =>
      let (t2, ws2) := createAmlCompute ws name cfg
      ⟨t2, ws2, true, true⟩

/-- All acquisition variants appearing in the repository. -/
def repoAcquisitions :
    List (Workspace → String → ProvisioningConfig → AcquireResult) :=
  [tryExceptGetOrCreate, tryExceptWaitAfterGetOrCreate,
   membershipGetOrCreate, foundFlagGetOrCreate]

-- Basic lemmas about lookup after creation.

theorem lookupCT_create (ws : Workspace) (name : String) (cfg : ProvisioningConfig) :
    lookupCT (createAmlCompute ws name cfg).2 name = some (createAmlCompute ws name cfg).1 := by
  simp [lookupCT, createAmlCompute, List.find?]

theorem acquire_lookup_self (f : Workspace → String → ProvisioningConfig → AcquireResult)
    (hf : f ∈ repoAcquisitions) (ws : Workspace) (name : String) (cfg : ProvisioningConfig) :
    lookupCT (f ws name cfg).wsAfter name = some (f ws name cfg).target := by
  simp only [repoAcquisitions, List.mem_cons, List.not_mem_nil, or_false] at hf
  rcases hf with rfl | rfl | rfl | rfl <;>
    rcases hlk : lookupCT ws name with _ | t <;>
    simp only [tryExceptGetOrCreate, tryExceptWaitAfterGetOrCreate, membershipGetOrCreate,
      foundFlagGetOrCreate, hlk] <;>
    try split
  all_goals simp_all [lookupCT, createAmlCompute, List.find?]

/-! ## Waiting on cluster creation

Modelled from the spec: the SDK call wait_for_completion is not part of
this repository; the spec describes it as polling until the cluster is
ready or a timeout elapses.  A cluster state history is a function from
poll index to readiness; a call optionally carries timeout_in_minutes,
one poll per minute. -/

inductive WaitOutcome
  | ready (atPoll : Nat)
  | timedOut
deriving DecidableEq, Repr

/-- The returns of the polling wait: it returns `ready n` at the first
poll where the cluster is ready (within the timeout when one is given),
and returns `timedOut` at poll `t` when a timeout `t` was given and no
earlier poll was ready.  A wait without a timeout has no timedOut
return: it only ever returns at a ready state. -/
inductive WaitReturns : Option Nat → (Nat → Bool) → WaitOutcome → Prop
  | ready (tmo : Option Nat) (states : Nat → Bool) (n : Nat)
      (hn : states n = true) (hmin : ∀ m, m < n → states m = false)
      (hbound : ∀ t, tmo = some t → n < t) :
      WaitReturns tmo states (WaitOutcome.ready n)
  | timeout (t : Nat) (states : Nat → Bool)
      (hnone : ∀ m, m < t → states m = false) :
      WaitReturns (some t) states WaitOutcome.timedOut

/-- First poll index below the bound at which the state is ready. -/
def firstReadyBelow (states : Nat → Bool) : Nat → Option Nat
  | 0 => none
  | t + 1 =>
      match firstReadyBelow states t with
      | some n => some n
      | none => if states t then some t else none

theorem firstReadyBelow_some (states : Nat → Bool) :
    ∀ t n, firstReadyBelow states t = some n →
      n < t ∧ states n = true ∧ ∀ m, m < n → states m = false := by
  intro t
  induction t with
  | zero => intro n h; simp [firstReadyBelow] at h
  | succ t ih =>
      intro n h
      rw [firstReadyBelow] at h
      rcases hfr : firstReadyBelow states t with _ | k
      · rw [hfr] at h
        by_cases hs : states t
        · simp [hs] at h
          subst h
          refine ⟨Nat.lt_succ_self t, hs, ?_⟩
          intro m hm
          by_contra hc
          -- a ready poll below t contradicts firstReadyBelow t = none
          have : ∀ j, j ≤ t → firstReadyBelow states j = none → ∀ i, i < j → states i = false := by
            intro j
            induction j with
            | zero => intro _ _ i hi; omega
            | succ j ihj =>
                intro hj hnone i hi
                rw [firstReadyBelow] at hnone
                rcases hfr2 : firstReadyBelow states j with _ | k2
                · rw [hfr2] at hnone
                  rcases Nat.lt_succ_iff_lt_or_eq.mp hi with hlt | rfl
                  · exact ihj (Nat.le_of_succ_le hj) hfr2 i hlt
                  · by_cases hsj : states i <;> simp [hsj] at hnone ⊢
                · rw [hfr2] at hnone; simp at hnone
          exact absurd (this t le_rfl hfr m hm) (by simpa using hc)
        · simp [hs] at h
      · rw [hfr] at h
        simp at h
        subst h
        obtain ⟨h1, h2, h3⟩ := ih k hfr
        exact ⟨Nat.lt_succ_of_lt h1, h2, h3⟩

theorem firstReadyBelow_none (states : Nat → Bool) :
    ∀ t, firstReadyBelow states t = none → ∀ m, m < t → states m = false := by
  intro t
  induction t with
  | zero => intro _ m hm; omega
  | succ t ih =>
      intro h m hm
      rw [firstReadyBelow] at h
      rcases hfr : firstReadyBelow states t with _ | k
      · rw [hfr] at h
        rcases Nat.lt_succ_iff_lt_or_eq.mp hm with hlt | rfl
        · exact ih hfr m hlt
        · by_cases hs : states m <;> simp [hs] at h ⊢
      · rw [hfr] at h; simp at h

/-- A wait with a timeout always returns: at the first ready poll below
the timeout, or with a timeout outcome. -/
theorem waitTimed_returns (t : Nat) (states : Nat → Bool) :
    ∃ out, WaitReturns (some t) states out := by
  rcases hfr : firstReadyBelow states t with _ | n
  · exact ⟨WaitOutcome.timedOut, WaitReturns.timeout t states (firstReadyBelow_none states t hfr)⟩
  · obtain ⟨h1, h2, h3⟩ := firstReadyBelow_some states t n hfr
    exact ⟨WaitOutcome.ready n,
      WaitReturns.ready (some t) states n h2 h3 (by intro t' ht'; injection ht' with h; omega)⟩

/-! ## The updated scoring function of score.py

The register-model-deploy-local notebook writes, via %%writefile, a
score.py whose run(data) calls model.predict(data) inside try, returns
the constant string on success, and returns str(e) for any caught
exception.  The model loaded by init() is external state: it is the
`predict` parameter, an arbitrary function that either produces a
prediction or raises (Except.error carries the exception message). -/

namespace ScorePy

def successMessage : String := "hello from updated score.py"

def run {α β : Type} (predict : α → Except String β) (data : α) :
    Except String String :=
  match predict data with
  | Except.ok _result => Except.ok successMessage
  | Except.error e => Except.ok e

end ScorePy

/-! ## The MNIST IDX parser of the Chainer notebook

load_data(filename, label) reads, from the decompressed gzip byte
stream: 4 magic bytes (unpacked and discarded), a big-endian item count,
and then either n_items label bytes reshaped to (n_items, 1), or
big-endian row and column counts followed by n_items*n_rows*n_cols pixel
bytes reshaped to (n_items, n_rows*n_cols).  Bytes are Nat values below
256; a short read (which would make numpy reshape raise) is none. -/

def readU32BE : List Nat → Option (Nat × List Nat)
  | b0 :: b1 :: b2 :: b3 :: rest =>
      some (((b0 * 256 + b1) * 256 + b2) * 256 + b3, rest)
  | _ => none

def readBytes (n : Nat) (bs : List Nat) : Option (List Nat × List Nat) :=
  if n ≤ bs.length then some (bs.take n, bs.drop n) else none

/-- numpy reshape of a flat buffer into nItems rows of rowLen entries. -/
def reshapeRows (nItems rowLen : Nat) (flat : List Nat) : List (List Nat) :=
  (List.range nItems).map fun i => (flat.drop (i * rowLen)).take rowLen

def load_data (label : Bool) (bs : List Nat) : Option (List (List Nat)) :=
  match readBytes 4 bs with
  | none => none
  | some (_magic, bs1) =>
    match readU32BE bs1 with
    | none => none
    | some (nItems, bs2) =>
      if label then
        match readBytes nItems bs2 with
        | none => none
        | some (payload, _) => some (payload.map fun b => [b])
      else
        match readU32BE bs2 with
        | none => none
        | some (nRows, bs3) =>
          match readU32BE bs3 with
          | none => none
          | some (nCols, bs4) =>
            match readBytes (nItems * nRows * nCols) bs4 with
            | none => none
            | some (payload, _) => some (reshapeRows nItems (nRows * nCols) payload)

/-! ## Notebook traces

Each notebook is embedded as the ordered list of its code-cell
statements.  Imports, comments and commented-out lines are omitted; a
multi-assignment binds under the first name.  Statement kinds:
`bind v desc` a plain construction bound to v (literals, SDK
configuration constructors, local reshaping of data); `bindCall v r m`
for v = r.m(...); `call r m` for a bare r.m(...); `fieldSet r f` for
r.f = ...; `submit run exp cfg` for run = exp.submit(cfg);
`deploy svc cfgs` for svc = Model.deploy(...); the three blocking wait
forms and sleep with its constant literal argument; `defFun` for a
locally defined function, tagged by what it does; `handler` for an
authored try/except, tagged by the purpose its body implements;
`shellCmd` for a synchronous shell escape; `display` for prints,
widgets and plots.  The constructors spawnThread, spawnProcess and
driveRun (invoking a state-transition method on a run) exist so that
their absence is a statement about the traces; no notebook contains
them. -/

inductive FunKind
  | binaryParser
  | dataPrep
  | scoringWrapper
  | resultHelper
deriving DecidableEq, Repr

inductive HandlerPurpose
  | getOrCreate
  | optionalDependency
  | returnErrorMessage
deriving DecidableEq, Repr

inductive Stmt
  | bind (v desc : String)
  | bindFromConfig (v : String)
  | bindCall (v recv meth : String)
  | call (recv meth : String)
  | fieldSet (recv field : String)
  | submit (runVar expVar cfgVar : String)
  | deploy (svcVar : String) (cfgVars : List String)
  | waitCluster (recv : String) (timeoutMinutes : Option Nat)
  | waitRun (recv : String)
  | waitDeployment (recv : String)
  | sleepConst (seconds : Nat)
  | defFun (fname : String) (kind : FunKind)
  | handler (excType : String) (purpose : HandlerPurpose)
  | shellCmd (cmd : String)
  | display (desc : String)
  | spawnThread (desc : String)
  | spawnProcess (desc : String)
  | driveRun (recv meth : String)
deriving DecidableEq, Repr

structure Notebook where
  nbName : String
  stmts : List Stmt
deriving DecidableEq, Repr

/-- src/unnamed/part_000: register a model and deploy to a local Docker
web service.  The defFun and handler entries embed the score.py written
by the %%writefile cell; its run body is the ScorePy.run function
above. -/
def nbDeployLocal : Notebook :=
  ⟨"register-model-deploy-local",
   [Stmt.display "print SDK version",
    Stmt.bindFromConfig "ws",
    Stmt.display "print workspace details",
    Stmt.bindCall "model" "Model" "register",
    Stmt.bind "environment" "Environment LocalDeploy",
    Stmt.fieldSet "environment" "python conda_dependencies",
    Stmt.bind "inference_config" "InferenceConfig over score py",
    Stmt.bindCall "deployment_config" "LocalWebservice" "deploy_configuration",
    Stmt.deploy "local_service" ["model", "inference_config", "deployment_config"],
    Stmt.waitDeployment "local_service",
    Stmt.display "print local service port",
    Stmt.call "local_service" "get_logs",
    Stmt.bind "sample_input" "json payload reshaped to bytes",
    Stmt.call "local_service" "run",
    Stmt.defFun "init" FunKind.scoringWrapper,
    Stmt.defFun "run" FunKind.scoringWrapper,
    Stmt.handler "Exception" HandlerPurpose.returnErrorMessage,
    Stmt.call "local_service" "reload",
    Stmt.call "local_service" "run",
    Stmt.call "local_service" "delete"]⟩

/-- src/unnamed/part_001: train and hyperparameter tune with Chainer.
The get-or-create cell is the tryExceptGetOrCreate function above; the
load_data definition is the load_data function above. -/
def nbChainer : Notebook :=
  ⟨"train-hyperparameter-tune-deploy-with-chainer",
   [Stmt.display "print SDK version",
    Stmt.shellCmd "jupyter nbextension install and enable",
    Stmt.call "telemetry" "set_diagnostics_collection",
    Stmt.bindFromConfig "ws",
    Stmt.display "print workspace details",
    Stmt.bind "cluster_name" "gpu-cluster",
    Stmt.handler "ComputeTargetException" HandlerPurpose.getOrCreate,
    Stmt.bindCall "compute_target" "ComputeTarget" "create_or_reuse",
    Stmt.waitCluster "compute_target" none,
    Stmt.display "print compute target status",
    Stmt.bind "project_folder" "chainer-mnist folder",
    Stmt.call "os" "makedirs",
    Stmt.call "shutil" "copy",
    Stmt.call "shutil" "copy",
    Stmt.bindCall "experiment" "Experiment" "ctor",
    Stmt.bind "script_params" "epochs batchsize output_dir arguments",
    Stmt.bind "estimator" "Chainer estimator over script_params and compute_target",
    Stmt.submit "run" "experiment" "estimator",
    Stmt.display "RunDetails widget on run",
    Stmt.call "run" "get_details",
    Stmt.bind "param_sampling" "RandomParameterSampling over batchsize and epochs",
    Stmt.bind "hyperdrive_config" "HyperDriveConfig reusing estimator",
    Stmt.submit "hyperdrive_run" "experiment" "hyperdrive_config",
    Stmt.display "RunDetails widget on hyperdrive_run",
    Stmt.waitRun "hyperdrive_run",
    Stmt.bindCall "best_run" "hyperdrive_run" "get_best_run_by_primary_metric",
    Stmt.call "best_run" "get_details",
    Stmt.call "best_run" "get_file_names",
    Stmt.bindCall "model" "best_run" "register_model",
    Stmt.call "shutil" "copy",
    Stmt.bindCall "cd" "CondaDependencies" "create",
    Stmt.call "cd" "add_conda_package",
    Stmt.call "cd" "add_conda_package",
    Stmt.call "cd" "save_to_file",
    Stmt.display "print serialized conda dependencies",
    Stmt.bind "inference_config" "InferenceConfig over chainer_score py",
    Stmt.bindCall "aciconfig" "AciWebservice" "deploy_configuration",
    Stmt.deploy "service" ["model", "inference_config", "aciconfig"],
    Stmt.waitDeployment "service",
    Stmt.display "print service state and scoring uri",
    Stmt.bindCall "key1" "service" "get_keys",
    Stmt.defFun "load_data" FunKind.binaryParser,
    Stmt.call "os" "makedirs",
    Stmt.call "urllib" "urlretrieve",
    Stmt.call "urllib" "urlretrieve",
    Stmt.bind "X_test" "load_data applied to the test image file",
    Stmt.bind "y_test" "load_data applied to the test label file",
    Stmt.bind "random_index" "random row index",
    Stmt.bind "input_data" "json payload with the row index",
    Stmt.bindCall "resp" "requests" "post",
    Stmt.display "print label and prediction and plot the digit",
    Stmt.display "list workspace models and webservices",
    Stmt.call "service" "delete"]⟩

/-- src/contrib/batch_inferencing/tabular-dataset-inference-iris.ipynb.
The get-or-create cell is the membershipGetOrCreate function above. -/
def nbIris : Notebook :=
  ⟨"tabular-dataset-inference-iris",
   [Stmt.bindFromConfig "ws",
    Stmt.display "print workspace details",
    Stmt.bind "compute_name" "env var or cpu-cluster",
    Stmt.bind "vm_size" "env var or STANDARD_D2_V2",
    Stmt.bindCall "compute_target" "ComputeTarget" "create_or_reuse",
    Stmt.waitCluster "compute_target" (some 20),
    Stmt.display "print compute target status",
    Stmt.bindCall "iris_data" "Datastore" "register_azure_blob_container",
    Stmt.bind "path_on_datastore" "iris folder on the datastore",
    Stmt.bindCall "input_iris_ds" "Dataset" "from_delimited_files",
    Stmt.bindCall "registered_iris_ds" "input_iris_ds" "register",
    Stmt.bindCall "named_iris_ds" "registered_iris_ds" "as_named_input",
    Stmt.bindCall "datastore" "ws" "get_default_datastore",
    Stmt.bind "output_folder" "PipelineData inferences",
    Stmt.bindCall "model_datastore" "Datastore" "register_azure_blob_container",
    Stmt.call "model_datastore" "download",
    Stmt.bindCall "model" "Model" "register",
    Stmt.display "print the scoring script",
    Stmt.bindCall "predict_conda_deps" "CondaDependencies" "create",
    Stmt.bind "predict_env" "Environment predict_environment",
    Stmt.fieldSet "predict_env" "python conda_dependencies",
    Stmt.fieldSet "predict_env" "docker enabled",
    Stmt.fieldSet "predict_env" "spark precache_packages",
    Stmt.bind "parallel_run_config" "ParallelRunConfig over predict_env and compute_target",
    Stmt.bind "distributed_csv_iris_step" "ParallelRunStep over parallel_run_config",
    Stmt.bind "pipeline" "Pipeline with the single step",
    Stmt.submit "pipeline_run" "experiment" "pipeline",
    Stmt.display "pipeline_run summary table",
    Stmt.display "RunDetails widget on pipeline_run",
    Stmt.waitRun "pipeline_run",
    Stmt.call "shutil" "rmtree",
    Stmt.bindCall "prediction_run" "pipeline_run" "get_children",
    Stmt.bindCall "prediction_output" "prediction_run" "get_output_data",
    Stmt.call "prediction_output" "download",
    Stmt.bind "result_file" "walk iris_results for the output file",
    Stmt.bindCall "df" "pd" "read_csv",
    Stmt.fieldSet "df" "columns",
    Stmt.display "print row count",
    Stmt.bind "random_subset" "sample of twenty rows",
    Stmt.display "subset head"]⟩

/-- src/how-to-use-azureml/automated-machine-learning/classification-text-dnn.
The get-or-create cell is the foundFlagGetOrCreate function above;
run_inference and get_result_df come from a helper module that is not
part of the repository sources. -/
def nbTextDnn : Notebook :=
  ⟨"auto-ml-classification-text-dnn",
   [Stmt.bindFromConfig "ws",
    Stmt.bindCall "experiment" "Experiment" "ctor",
    Stmt.bind "output" "summary dict of workspace fields",
    Stmt.display "summary dataframe",
    Stmt.bind "amlcompute_cluster_name" "cpu-dnntext",
    Stmt.bindCall "compute_target" "ComputeTarget" "create_or_reuse",
    Stmt.waitCluster "compute_target" (some 20),
    Stmt.bind "data_dir" "text-dnn-data",
    Stmt.defFun "get_20newsgroups_data" FunKind.dataPrep,
    Stmt.defFun "remove_blanks_20news" FunKind.dataPrep,
    Stmt.bind "data_train" "get_20newsgroups_data train split",
    Stmt.bind "data_test" "get_20newsgroups_data test split",
    Stmt.call "os" "mkdir",
    Stmt.call "data_train" "to_csv",
    Stmt.call "data_test" "to_csv",
    Stmt.bindCall "datastore" "ws" "get_default_datastore",
    Stmt.call "datastore" "upload",
    Stmt.bindCall "train_dataset" "Dataset" "from_delimited_files",
    Stmt.bind "automl_settings" "dict of automl settings",
    Stmt.bind "automl_config" "AutoMLConfig over automl_settings and compute_target",
    Stmt.submit "automl_run" "experiment" "automl_config",
    Stmt.display "automl_run summary table",
    Stmt.waitRun "automl_run",
    Stmt.bindCall "summary_df" "helper" "get_result_df",
    Stmt.bind "best_dnn_run_id" "first run id of the summary",
    Stmt.bindCall "best_dnn_run" "Run" "ctor",
    Stmt.call "os" "mkdir",
    Stmt.call "best_dnn_run" "download_file",
    Stmt.bindCall "model" "Model" "register",
    Stmt.bindCall "test_dataset" "Dataset" "from_delimited_files",
    Stmt.display "preview of the test dataset",
    Stmt.bindCall "test_experiment" "Experiment" "ctor",
    Stmt.call "os" "makedirs",
    Stmt.call "shutil" "copy2",
    Stmt.bindCall "test_run" "helper" "run_inference",
    Stmt.display "test_run summary table",
    Stmt.display "RunDetails widget on test_run",
    Stmt.waitRun "test_run",
    Stmt.bindCall "test_metrics" "test_run" "get_metrics"]⟩

/-- src/how-to-use-azureml/automated-machine-learning/classification-bank-
marketing-all-features.  The get-or-create cell is the
foundFlagGetOrCreate function above; the ONNX cell holds the ImportError
handler and the synchronous pip install shell escape. -/
def nbBankMarketing : Notebook :=
  ⟨"auto-ml-classification-bank-marketing-all-features",
   [Stmt.bindFromConfig "ws",
    Stmt.bindCall "experiment" "Experiment" "ctor",
    Stmt.bind "output" "summary dict of workspace fields",
    Stmt.display "summary dataframe",
    Stmt.bind "amlcompute_cluster_name" "cpu-cluster-4",
    Stmt.bindCall "compute_target" "ComputeTarget" "create_or_reuse",
    Stmt.waitCluster "compute_target" (some 20),
    Stmt.bindCall "data" "pd" "read_csv",
    Stmt.display "data head",
    Stmt.bind "missing_samples" "numpy mask of rows to corrupt",
    Stmt.fieldSet "data" "values",
    Stmt.call "os" "mkdir",
    Stmt.call "data" "to_csv",
    Stmt.bindCall "ds" "ws" "get_default_datastore",
    Stmt.call "ds" "upload",
    Stmt.bindCall "train_data" "Dataset" "from_delimited_files",
    Stmt.bind "label" "y",
    Stmt.bindCall "validation_dataset" "Dataset" "from_delimited_files",
    Stmt.bindCall "test_dataset" "Dataset" "from_delimited_files",
    Stmt.bind "automl_settings" "dict of automl settings",
    Stmt.bind "automl_config" "AutoMLConfig over automl_settings and compute_target",
    Stmt.submit "remote_run" "experiment" "automl_config",
    Stmt.display "remote_run summary table",
    Stmt.waitRun "remote_run",
    Stmt.bindCall "best_run_customized" "remote_run" "get_output",
    Stmt.bindCall "custom_featurizer" "fitted_model_customized" "named_steps",
    Stmt.bindCall "df" "custom_featurizer" "get_featurization_summary",
    Stmt.display "featurization summary",
    Stmt.bindCall "df" "custom_featurizer" "get_featurization_summary",
    Stmt.display "featurization summary raw",
    Stmt.bindCall "df" "custom_featurizer" "get_stats_feature_type_summary",
    Stmt.display "feature type summary",
    Stmt.display "RunDetails widget on remote_run",
    Stmt.bindCall "model_explainability_run_id" "remote_run" "get_properties",
    Stmt.bindCall "model_explainability_run" "AutoMLRun" "ctor",
    Stmt.waitRun "model_explainability_run",
    Stmt.bindCall "best_run" "remote_run" "get_output",
    Stmt.bindCall "client" "ExplanationClient" "from_run",
    Stmt.bindCall "engineered_explanations" "client" "download_model_explanation",
    Stmt.display "engineered feature importances",
    Stmt.bindCall "client" "ExplanationClient" "from_run",
    Stmt.bindCall "engineered_explanations" "client" "download_model_explanation",
    Stmt.display "raw feature importances",
    Stmt.bindCall "best_run" "remote_run" "get_output",
    Stmt.call "OnnxConverter" "save_onnx_model",
    Stmt.bindCall "test_df" "test_dataset" "to_pandas_dataframe",
    Stmt.bind "python_version_compatible" "python version check",
    Stmt.handler "ImportError" HandlerPurpose.optionalDependency,
    Stmt.shellCmd "pip install onnxruntime 0 4 0",
    Stmt.defFun "get_onnx_res" FunKind.resultHelper,
    Stmt.bind "mdl_bytes" "serialized onnx model",
    Stmt.bind "onnx_res" "get_onnx_res of best_run",
    Stmt.bind "onnxrt_helper" "OnnxInferenceHelper over the model bytes",
    Stmt.bindCall "pred_onnx" "onnxrt_helper" "predict",
    Stmt.display "print onnx predictions",
    Stmt.bindCall "best_run" "remote_run" "get_output",
    Stmt.call "os" "makedirs",
    Stmt.bindCall "model_name" "best_run" "properties",
    Stmt.call "best_run" "download_file",
    Stmt.call "best_run" "download_file",
    Stmt.bindCall "model" "remote_run" "register_model",
    Stmt.display "print remote_run model_id",
    Stmt.bind "inference_config" "InferenceConfig over the downloaded scoring files",
    Stmt.bindCall "aciconfig" "AciWebservice" "deploy_configuration",
    Stmt.bind "aci_service_name" "automl-sample-bankmarketing-all",
    Stmt.deploy "aci_service" ["model", "inference_config", "aciconfig"],
    Stmt.waitDeployment "aci_service",
    Stmt.display "print service state",
    Stmt.bindCall "X_test" "test_dataset" "drop_columns",
    Stmt.bindCall "y_test" "test_dataset" "keep_columns",
    Stmt.display "preview of the test dataset",
    Stmt.bindCall "X_test" "X_test" "to_pandas_dataframe",
    Stmt.bindCall "y_test" "y_test" "to_pandas_dataframe",
    Stmt.bindCall "y_pred" "fitted_model" "predict",
    Stmt.bind "actual" "first column of y_test",
    Stmt.display "print shapes",
    Stmt.display "scatter plot of predictions"]⟩

/-- src/how-to-use-azureml/automated-machine-learning/forecasting-beer-
remote.  The get-or-create cell is the tryExceptWaitAfterGetOrCreate
function above; split_full_for_forecasting, get_result_df, run_inference
and run_multiple_inferences come from a helper module that is not part
of the repository sources. -/
def nbBeer : Notebook :=
  ⟨"auto-ml-forecasting-beer-remote",
   [Stmt.fieldSet "warnings" "showwarning",
    Stmt.bindFromConfig "ws",
    Stmt.bindCall "experiment" "Experiment" "ctor",
    Stmt.bind "output" "summary dict of workspace fields",
    Stmt.display "summary dataframe",
    Stmt.bind "cpu_cluster_name" "cpu-cluster",
    Stmt.handler "ComputeTargetException" HandlerPurpose.getOrCreate,
    Stmt.bindCall "compute_target" "ComputeTarget" "create_or_reuse",
    Stmt.waitCluster "compute_target" none,
    Stmt.bindCall "df" "pd" "read_csv",
    Stmt.bindCall "test_df" "pd" "read_csv",
    Stmt.bind "months" "grouped production by month",
    Stmt.display "production plots",
    Stmt.bind "target_column_name" "BeerProduction",
    Stmt.bindCall "train" "helper" "split_full_for_forecasting",
    Stmt.call "train" "to_csv",
    Stmt.call "valid" "to_csv",
    Stmt.call "test_df" "to_csv",
    Stmt.bindCall "datastore" "ws" "get_default_datastore",
    Stmt.call "datastore" "upload_files",
    Stmt.call "datastore" "upload_files",
    Stmt.call "datastore" "upload_files",
    Stmt.bindCall "train_dataset" "Dataset" "from_delimited_files",
    Stmt.bindCall "valid_dataset" "Dataset" "from_delimited_files",
    Stmt.bindCall "test_dataset" "Dataset" "from_delimited_files",
    Stmt.bind "max_horizon" "twelve months",
    Stmt.bind "automl_settings" "dict of automl settings",
    Stmt.bind "automl_config" "AutoMLConfig over automl_settings and compute_target",
    Stmt.submit "remote_run" "experiment" "automl_config",
    Stmt.display "remote_run summary table",
    Stmt.waitRun "remote_run",
    Stmt.bindCall "summary_df" "helper" "get_result_df",
    Stmt.bind "best_dnn_run_id" "run id of the TCN forecaster",
    Stmt.bindCall "best_dnn_run" "Run" "ctor",
    Stmt.display "RunDetails widget on the parent of best_dnn_run",
    Stmt.display "RunDetails widget on best_dnn_run",
    Stmt.bindCall "test_dataset" "Dataset" "from_delimited_files",
    Stmt.display "preview of the test dataset",
    Stmt.bindCall "compute_target" "ws" "compute_targets",
    Stmt.bindCall "test_experiment" "Experiment" "ctor",
    Stmt.call "os" "makedirs",
    Stmt.call "shutil" "copy2",
    Stmt.bindCall "test_run" "helper" "run_inference",
    Stmt.display "RunDetails widget on test_run",
    Stmt.bindCall "summary_df" "helper" "run_multiple_inferences",
    Stmt.bindCall "test_run" "Run" "ctor",
    Stmt.waitRun "test_run",
    Stmt.bindCall "test_score" "test_run" "get_metrics",
    Stmt.fieldSet "summary_df" "loc",
    Stmt.display "print test scores",
    Stmt.display "summary dataframe"]⟩

/-- src/how-to-use-azureml/monitor-models/data-drift/drift-on-aks.  The
AKS get-or-create is the tryExceptGetOrCreate function above with
KeyError; the AmlCompute one is membershipGetOrCreate; the detector cell
tries create_from_model and falls back to get on KeyError. -/
def nbDrift : Notebook :=
  ⟨"drift-on-aks",
   [Stmt.display "print SDK version",
    Stmt.bindFromConfig "ws",
    Stmt.display "workspace summary",
    Stmt.bindCall "dstore" "ws" "get_default_datastore",
    Stmt.call "dstore" "upload",
    Stmt.bindCall "dset" "Dataset" "from_delimited_files",
    Stmt.bindCall "dset" "dset" "register",
    Stmt.bindCall "dset" "Dataset" "get_by_name",
    Stmt.bindCall "model" "Model" "register",
    Stmt.bindCall "env" "Environment" "from_conda_specification",
    Stmt.bind "inference_config" "InferenceConfig score py over env",
    Stmt.bindCall "prov_config" "AksCompute" "provisioning_configuration",
    Stmt.bind "aks_name" "drift-aks",
    Stmt.handler "KeyError" HandlerPurpose.getOrCreate,
    Stmt.bindCall "aks_target" "ComputeTarget" "create_or_reuse",
    Stmt.waitCluster "aks_target" none,
    Stmt.bindCall "deployment_config" "AksWebservice" "deploy_configuration",
    Stmt.bind "service_name" "drift-aks-service",
    Stmt.deploy "service" ["model", "inference_config", "deployment_config", "aks_target"],
    Stmt.waitDeployment "service",
    Stmt.display "print service state",
    Stmt.bind "isd" "NoaaIsdWeather over the last two days",
    Stmt.bind "df" "NOAA dataframe fillna and filter to FLORIDA stations",
    Stmt.bind "X" "feature columns of df",
    Stmt.bind "today_data" "json payload from X",
    Stmt.bindCall "prediction" "service" "run",
    Stmt.display "print prediction",
    Stmt.bind "compute_name" "cpu-cluster",
    Stmt.bindCall "compute_target" "ComputeTarget" "create_or_reuse",
    Stmt.waitCluster "compute_target" (some 20),
    Stmt.sleepConst 600,
    Stmt.bind "alert_config" "AlertConfiguration with one address",
    Stmt.handler "KeyError" HandlerPurpose.getOrCreate,
    Stmt.bindCall "monitor" "DataDriftDetector" "create_or_get",
    Stmt.display "monitor summary",
    Stmt.bindCall "monitor" "monitor" "update",
    Stmt.display "monitor summary",
    Stmt.bindCall "run" "monitor" "run",
    Stmt.sleepConst 1200,
    Stmt.bindCall "child_run" "run" "get_children",
    Stmt.bindCall "results" "monitor" "get_output",
    Stmt.bindCall "drift_plots" "monitor" "show",
    Stmt.call "monitor" "enable_schedule"]⟩

/-- The seven notebooks of the repository, in the order part_000,
part_001, contrib, automated-machine-learning, monitor-models. -/
def notebooks : List Notebook :=
  [nbDeployLocal, nbChainer, nbIris, nbTextDnn, nbBankMarketing, nbBeer, nbDrift]

/-! ## Checkers over the traces -/

/-- Statements that bind the named notebook variable. -/
def bindsVar (v : String) : Stmt → Bool
  | Stmt.bind r _ => r == v
  | Stmt.bindCall r _ _ => r == v
  | Stmt.bindFromConfig r => r == v
  | Stmt.submit r _ _ => r == v
  | Stmt.deploy r _ => r == v
  | _ => false

/-- Methods in the traces that mutate their receiver in place. -/
def mutatingMethods : List String := ["add_conda_package", "update", "enable_schedule"]

/-- A statement that changes the object currently bound to v: a field
assignment on v, an in-place mutating method call on v, or a rebinding
of v. -/
def mutatesVar (v : String) : Stmt → Bool
  | Stmt.fieldSet r _ => r == v
  | Stmt.call r m => r == v && mutatingMethods.contains m
  | s => bindsVar v s

/-- Indices and configuration variables of the submit statements. -/
def submitsOf (stmts : List Stmt) : List (Nat × String) :=
  stmts.enum.filterMap fun p =>
    match p.2 with
    | Stmt.submit _ _ cfg => some (p.1, cfg)
    | _ => none

/-- Every submitted run configuration is bound before its submission,
is submitted exactly once, and no statement after the submission
mutates or rebinds it. -/
def configsFreshAndFrozen (stmts : List Stmt) : Bool :=
  (submitsOf stmts).all fun p =>
    ((stmts.take p.1).any (bindsVar p.2)) &&
    ((stmts.drop (p.1 + 1)).all fun s => !(mutatesVar p.2 s)) &&
    (((submitsOf stmts).filter (fun q => q.2 == p.2)).length == 1)

def isFromConfigBind : Stmt → Bool
  | Stmt.bindFromConfig _ => true
  | _ => false

/-- The workspace variable ws is bound exactly once, that binding is a
Workspace.from_config call, and no statement assigns a field of ws. -/
def wsSingleLoadReadOnly (stmts : List Stmt) : Bool :=
  ((stmts.filter (bindsVar "ws")).length == 1) &&
  (stmts.all fun s => !(bindsVar "ws" s) || isFromConfigBind s) &&
  (stmts.all fun s =>
    match s with
    | Stmt.fieldSet r _ => !(r == "ws")
    | _ => true)

/-- The waiting statements: blocking polls on clusters, runs and
deployments, and constant-duration sleeps. -/
def isWaiting : Stmt → Bool
  | Stmt.waitCluster _ _ => true
  | Stmt.waitRun _ => true
  | Stmt.waitDeployment _ => true
  | Stmt.sleepConst _ => true
  | _ => false

/-- Client-side concurrency primitives: spawning a thread or process,
or cancelling a remote run. -/
def isConcurrencyPrimitive : Stmt → Bool
  | Stmt.spawnThread _ => true
  | Stmt.spawnProcess _ => true
  | Stmt.driveRun _ m => m == "cancel"
  | _ => false

def isDriveRun : Stmt → Bool
  | Stmt.driveRun _ _ => true
  | _ => false

def allWaitingStmts : List Stmt :=
  notebooks.flatMap fun nb => nb.stmts.filter isWaiting

/-- Variables in the traces bound to run handles (submitted runs, their
children, and runs reconstructed from a run id). -/
def runVarNames : List String :=
  ["run", "hyperdrive_run", "pipeline_run", "automl_run", "remote_run", "test_run",
   "best_run", "best_dnn_run", "child_run", "prediction_run", "model_explainability_run",
   "best_run_customized"]

/-- Operations that would drive a run between its remote-defined
states. -/
def runStateTransitionMethods : List String :=
  ["cancel", "fail", "complete", "cancel_iteration"]

/-- Operations on a run handle that only observe it: polling, detail
and metric queries, child and output retrieval, and artifact
operations. -/
def observationalRunMethods : List String :=
  ["wait_for_completion", "get_details", "get_best_run_by_primary_metric",
   "get_file_names", "register_model", "get_children", "get_output_data",
   "get_metrics", "get_output", "get_properties", "properties", "download_file"]

/-- Every method invocation on a run-handle variable in a trace. -/
def runMethodCalls (stmts : List Stmt) : List (String × String) :=
  stmts.filterMap fun s =>
    match s with
    | Stmt.call r m => if runVarNames.contains r then some (r, m) else none
    | Stmt.bindCall _ r m => if runVarNames.contains r then some (r, m) else none
    | Stmt.waitRun r => some (r, "wait_for_completion")
    | Stmt.driveRun r m => some (r, m)
    | _ => none

def isHandler : Stmt → Bool
  | Stmt.handler _ _ => true
  | _ => false

def handlerIsGetOrCreate : Stmt → Bool
  | Stmt.handler _ p => p == HandlerPurpose.getOrCreate
  | _ => false

/-- All authored try/except handlers, in notebook order. -/
def allHandlers : List Stmt :=
  notebooks.flatMap fun nb => nb.stmts.filter isHandler

def allHandlersGetOrCreate : Bool := allHandlers.all handlerIsGetOrCreate

/-- Get-or-create handlers catch only the two platform not-found
exceptions. -/
def getOrCreateCatchesNotFound : Stmt → Bool
  | Stmt.handler e HandlerPurpose.getOrCreate =>
      e == "ComputeTargetException" || e == "KeyError"
  | _ => true

/-- A locally defined function implementing an original local
algorithm: of the four kinds of locally defined functions in the
traces, only binaryParser decodes a file format byte by byte; dataPrep
reshapes local data for upload, scoringWrapper wraps model.predict, and
resultHelper downloads an artifact and loads it. -/
def isLocalAlgorithmDef : Stmt → Bool
  | Stmt.defFun _ k => k == FunKind.binaryParser
  | _ => false

def noLocalAlgorithmDefs : Bool :=
  notebooks.all fun nb => nb.stmts.all fun s => !(isLocalAlgorithmDef s)

/-- The timeout arguments of the waits on cluster creation, one per
waitCluster statement, in notebook order. -/
def clusterWaitCalls : List (Option Nat) :=
  notebooks.flatMap fun nb =>
    nb.stmts.filterMap fun s =>
      match s with
      | Stmt.waitCluster _ t => some t
      | _ => none

/-! ## Concrete workspace used in counterexamples and witnesses -/

/-- A compute target of AKS type registered under the cluster name that
the bank-marketing notebook chooses. -/
def aksWronglyNamed : ComputeTargetObj :=
  ⟨"cpu-cluster-4", CTType.aksCompute, ⟨"STANDARD_D3_V2", 0, 2⟩⟩

def wsWithAksUnderClusterName : Workspace := ⟨[("cpu-cluster-4", aksWronglyNamed)]⟩

/-- The provisioning configuration of the bank-marketing notebook. -/
def bankClusterConfig : ProvisioningConfig := ⟨"STANDARD_D2_V2", 0, 6⟩

/-- Claim C1 as stated: in every notebook, whenever a compute target
with the chosen name already exists in the workspace, the acquisition
step reuses it with no creation call. -/
def reuseWheneverNameExists : Prop :=
  ∀ f ∈ repoAcquisitions, ∀ (ws : Workspace) (name : String) (cfg : ProvisioningConfig),
    (lookupCT ws name).isSome = true → (f ws name cfg).created = false

/-- Every foundFlag acquisition leaves an AmlCompute-typed target bound:
the reuse branch requires the type test, and creation provisions
AmlCompute. -/
theorem foundFlag_target_aml (ws : Workspace) (name : String) (cfg : ProvisioningConfig) :
    (foundFlagGetOrCreate ws name cfg).target.ctType = CTType.amlCompute := by
  unfold foundFlagGetOrCreate
  rcases hlk : lookupCT ws name with _ | t
  · simp [createAmlCompute]
  · by_cases h : t.ctType = CTType.amlCompute <;> simp [h, createAmlCompute]

-- Reuse equations: what each variant returns when the name is found.

theorem tryExcept_reuse (ws : Workspace) (name : String) (cfg : ProvisioningConfig)
    (t : ComputeTargetObj) (h : lookupCT ws name = some t) :
    tryExceptGetOrCreate ws name cfg = ⟨t, ws, false, false⟩ := by
  simp [tryExceptGetOrCreate, h]

theorem tryExceptWaitAfter_reuse (ws : Workspace) (name : String) (cfg : ProvisioningConfig)
    (t : ComputeTargetObj) (h : lookupCT ws name = some t) :
    tryExceptWaitAfterGetOrCreate ws name cfg = ⟨t, ws, false, true⟩ := by
  simp [tryExceptWaitAfterGetOrCreate, h]

theorem membership_reuse (ws : Workspace) (name : String) (cfg : ProvisioningConfig)
    (t : ComputeTargetObj) (h : lookupCT ws name = some t) :
    membershipGetOrCreate ws name cfg = ⟨t, ws, false, false⟩ := by
  simp [membershipGetOrCreate, h]

theorem foundFlag_reuse (ws : Workspace) (name : String) (cfg : ProvisioningConfig)
    (t : ComputeTargetObj) (h : lookupCT ws name = some t)
    (haml : t.ctType = CTType.amlCompute) :
    foundFlagGetOrCreate ws name cfg = ⟨t, ws, false, true⟩ := by
  simp [foundFlagGetOrCreate, h, haml]

/-- C1 counterexample: the found-flag variant of the bank-marketing and
text-dnn notebooks calls ComputeTarget.create even though a compute
target with the chosen name cpu-cluster-4 already exists, when that
target is not of type AmlCompute. -/
theorem claim_C1_counterexample : ¬ reuseWheneverNameExists := fun h =>
  absurd
    (h foundFlagGetOrCreate (by simp [repoAcquisitions]) wsWithAksUnderClusterName
      "cpu-cluster-4" bankClusterConfig (by decide))
    (by decide)

/-- C1 (amended): compute-target acquisition is an idempotent
get-or-create.  In the try/except and membership-test variants an
existing target of any type is reused with no creation call; in the
found-flag variant an existing AmlCompute target is reused with no
creation call, while an existing target of another type triggers a
creation call; when the name is absent every variant creates exactly
once; and running any variant a second time on the resulting workspace
returns the same target and skips creation. -/
theorem claim_C1_amended :
    (∀ (ws : Workspace) (name : String) (cfg : ProvisioningConfig) (t : ComputeTargetObj),
        lookupCT ws name = some t →
        ((tryExceptGetOrCreate ws name cfg).target = t ∧
         (tryExceptGetOrCreate ws name cfg).created = false) ∧
        ((tryExceptWaitAfterGetOrCreate ws name cfg).target = t ∧
         (tryExceptWaitAfterGetOrCreate ws name cfg).created = false) ∧
        ((membershipGetOrCreate ws name cfg).target = t ∧
         (membershipGetOrCreate ws name cfg).created = false)) ∧
    (∀ (ws : Workspace) (name : String) (cfg : ProvisioningConfig) (t : ComputeTargetObj),
        lookupCT ws name = some t → t.ctType = CTType.amlCompute →
        (foundFlagGetOrCreate ws name cfg).target = t ∧
        (foundFlagGetOrCreate ws name cfg).created = false) ∧
    (∀ (ws : Workspace) (name : String) (cfg : ProvisioningConfig) (t : ComputeTargetObj),
        lookupCT ws name = some t → t.ctType ≠ CTType.amlCompute →
        (foundFlagGetOrCreate ws name cfg).created = true) ∧
    (∀ f ∈ repoAcquisitions, ∀ (ws : Workspace) (name : String) (cfg : ProvisioningConfig),
        lookupCT ws name = none → (f ws name cfg).created = true) ∧
    (∀ f ∈ repoAcquisitions, ∀ (ws : Workspace) (name : String) (cfg : ProvisioningConfig),
        (f (f ws name cfg).wsAfter name cfg).target = (f ws name cfg).target ∧
        (f (f ws name cfg).wsAfter name cfg).created = false) := by
  refine ⟨?_, ?_, ?_, ?_, ?_⟩
  · intro ws name cfg t h
    simp [tryExceptGetOrCreate, tryExceptWaitAfterGetOrCreate, membershipGetOrCreate, h]
  · intro ws name cfg t h htype
    simp [foundFlagGetOrCreate, h, htype]
  · intro ws name cfg t h htype
    simp [foundFlagGetOrCreate, h, htype, createAmlCompute]
  · intro f hf ws name cfg h
    simp only [repoAcquisitions, List.mem_cons, List.not_mem_nil, or_false] at hf
    rcases hf with rfl | rfl | rfl | rfl <;>
      simp [tryExceptGetOrCreate, tryExceptWaitAfterGetOrCreate, membershipGetOrCreate,
        foundFlagGetOrCreate, h, createAmlCompute]
  · intro f hf ws name cfg
    have hlk := acquire_lookup_self f hf ws name cfg
    simp only [repoAcquisitions, List.mem_cons, List.not_mem_nil, or_false] at hf
    rcases hf with rfl | rfl | rfl | rfl
    · rw [tryExcept_reuse _ name cfg _ hlk]; exact ⟨rfl, rfl⟩
    · rw [tryExceptWaitAfter_reuse _ name cfg _ hlk]; exact ⟨rfl, rfl⟩
    · rw [membership_reuse _ name cfg _ hlk]; exact ⟨rfl, rfl⟩
    · rw [foundFlag_reuse _ name cfg _ hlk (foundFlag_target_aml ws name cfg)]
      exact ⟨rfl, rfl⟩

/-- Witness for C1: reuse on an existing target in the try/except
variant, instantiated at a concrete workspace. -/
theorem claim_C1_witness :
    (tryExceptGetOrCreate wsWithAksUnderClusterName "cpu-cluster-4" bankClusterConfig).created
      = false :=
  ((claim_C1_amended.1 wsWithAksUnderClusterName "cpu-cluster-4" bankClusterConfig
      aksWronglyNamed (by decide)).1).2

/-- C9: in the membership-test get-or-create, an existing target under
the requested name that is not an AmlCompute instance is silently kept:
no creation call, no error path, no polling, and the wrongly-typed
target itself is bound to compute_target. -/
theorem claim_C9 (ws : Workspace) (name : String) (cfg : ProvisioningConfig)
    (t : ComputeTargetObj) (hfound : lookupCT ws name = some t)
    (_htype : t.ctType ≠ CTType.amlCompute) :
    (membershipGetOrCreate ws name cfg).target = t ∧
    (membershipGetOrCreate ws name cfg).created = false ∧
    (membershipGetOrCreate ws name cfg).polled = false := by
  simp [membershipGetOrCreate, hfound]

/-- Witness for C9 at a concrete workspace holding an AKS target under
the requested name. -/
theorem claim_C9_witness :
    (membershipGetOrCreate wsWithAksUnderClusterName "cpu-cluster-4" bankClusterConfig).target
        = aksWronglyNamed ∧
    (membershipGetOrCreate wsWithAksUnderClusterName "cpu-cluster-4" bankClusterConfig).polled
        = false :=
  have h := claim_C9 wsWithAksUnderClusterName "cpu-cluster-4" bankClusterConfig
    aksWronglyNamed (by decide) (by decide)
  ⟨h.1, h.2.2⟩

/-- C2 counterexample: not every authored exception handler implements
get-or-create idempotency; the catch-all Exception handler of the
score.py written by the deploy-local notebook returns the error message
instead, and the bank-marketing notebook catches ImportError around the
optional onnxruntime import. -/
theorem claim_C2_counterexample : allHandlersGetOrCreate = false := by decide

/-- C2 (amended): the authored exception handling consists of exactly
six handlers: four get-or-create handlers, each catching one of the two
platform not-found exceptions (ComputeTargetException or KeyError), one
ImportError handler guarding the optional onnxruntime dependency, and
one catch-all Exception handler in the scoring script that returns the
error message to the caller; the notebooks author no other handler and
no retry. -/
theorem claim_C2_amended :
    allHandlers =
      [Stmt.handler "Exception" HandlerPurpose.returnErrorMessage,
       Stmt.handler "ComputeTargetException" HandlerPurpose.getOrCreate,
       Stmt.handler "ImportError" HandlerPurpose.optionalDependency,
       Stmt.handler "ComputeTargetException" HandlerPurpose.getOrCreate,
       Stmt.handler "KeyError" HandlerPurpose.getOrCreate,
       Stmt.handler "KeyError" HandlerPurpose.getOrCreate] ∧
    (allHandlers.all getOrCreateCatchesNotFound) = true := by
  constructor <;> decide

/-- C3 counterexample: the source does implement an original local
algorithm: the Chainer notebook defines load_data, a parser for the
gzipped IDX/MNIST binary format. -/
theorem claim_C3_counterexample : noLocalAlgorithmDefs = false := by decide

/-- C3 (amended): apart from the single load_data binary parser of the
Chainer notebook, no locally defined function in any notebook
implements an original local algorithm; and load_data is a genuine
local decoder, evaluated here on a concrete label stream and a concrete
two-by-two-by-two image stream. -/
theorem claim_C3_amended :
    (notebooks.flatMap fun nb => nb.stmts.filter isLocalAlgorithmDef) =
      [Stmt.defFun "load_data" FunKind.binaryParser] ∧
    load_data true [0, 0, 8, 1, 0, 0, 0, 2, 5, 3] = some [[5], [3]] ∧
    load_data false
        [0, 0, 8, 3, 0, 0, 0, 2, 0, 0, 0, 2, 0, 0, 0, 2, 1, 2, 3, 4, 5, 6, 7, 8] =
      some [[1, 2, 3, 4], [5, 6, 7, 8]] := by
  refine ⟨by decide, by decide, by decide⟩

/-- C4: every wait on cluster creation in the repository either returns
at a poll where the cluster is ready, or returns by timeout, and a
timeout return only occurs for the calls that pass a timeout parameter;
moreover every wait that passes a timeout parameter always returns. -/
theorem claim_C4 : ∀ tmo ∈ clusterWaitCalls,
    (∀ (states : Nat → Bool) (out : WaitOutcome), WaitReturns tmo states out →
        (∀ n, out = WaitOutcome.ready n → states n = true) ∧
        (out = WaitOutcome.timedOut → ∃ t, tmo = some t)) ∧
    (∀ t, tmo = some t → ∀ states : Nat → Bool, ∃ out, WaitReturns tmo states out) := by
  intro tmo _hmem
  constructor
  · intro states out h
    cases h with
    | ready tmo2 states2 n hn hmin hbound =>
        refine ⟨?_, ?_⟩
        · intro m hm
          injection hm with h2
          subst h2
          exact hn
        · intro hcontra
          exact WaitOutcome.noConfusion hcontra
    | timeout t2 states2 hnone =>
        refine ⟨?_, ?_⟩
        · intro m hm
          exact WaitOutcome.noConfusion hm
        · intro _
          exact ⟨t2, rfl⟩
  · intro t ht states
    subst ht
    exact waitTimed_returns t states

/-- Witness for C4: one of the timed cluster waits of the repository,
on a history that is never ready, still returns. -/
theorem claim_C4_witness :
    some 20 ∈ clusterWaitCalls ∧
    ∃ out, WaitReturns (some 20) (fun _ => false) out :=
  ⟨by decide, (claim_C4 (some 20) (by decide)).2 20 rfl (fun _ => false)⟩

/-- C5: in every notebook, every submitted run configuration is bound
before its submission, is submitted exactly once, and no later
statement assigns a field of it, calls a mutating method on it, or
rebinds it. -/
theorem claim_C5 :
    (notebooks.all fun nb => configsFreshAndFrozen nb.stmts) = true := by decide

/-- C6: in every notebook, the workspace variable ws is bound exactly
once, that binding is Workspace.from_config, and no statement writes a
field of ws. -/
theorem claim_C6 :
    (notebooks.all fun nb => wsSingleLoadReadOnly nb.stmts) = true := by decide

/-- C7: no notebook statement spawns a thread or a process or cancels a
remote run, and the waiting statements of the repository are exactly
the blocking cluster, run and deployment polls together with the two
constant sleeps of 600 and 1200 seconds. -/
theorem claim_C7 :
    (notebooks.all fun nb => nb.stmts.all fun s => !(isConcurrencyPrimitive s)) = true ∧
    allWaitingStmts =
      [Stmt.waitDeployment "local_service",
       Stmt.waitCluster "compute_target" none,
       Stmt.waitRun "hyperdrive_run",
       Stmt.waitDeployment "service",
       Stmt.waitCluster "compute_target" (some 20),
       Stmt.waitRun "pipeline_run",
       Stmt.waitCluster "compute_target" (some 20),
       Stmt.waitRun "automl_run",
       Stmt.waitRun "test_run",
       Stmt.waitCluster "compute_target" (some 20),
       Stmt.waitRun "remote_run",
       Stmt.waitRun "model_explainability_run",
       Stmt.waitDeployment "aci_service",
       Stmt.waitCluster "compute_target" none,
       Stmt.waitRun "remote_run",
       Stmt.waitRun "test_run",
       Stmt.waitCluster "aks_target" none,
       Stmt.waitDeployment "service",
       Stmt.waitCluster "compute_target" (some 20),
       Stmt.sleepConst 600,
       Stmt.sleepConst 1200] := by
  constructor <;> decide

/-- C8: no notebook statement invokes a state-transition operation on a
run handle, and every method invoked on a run-handle variable is an
observational or artifact operation (polling, detail, metric, child and
output queries, file download, model registration). -/
theorem claim_C8 :
    (notebooks.all fun nb => nb.stmts.all fun s => !(isDriveRun s)) = true ∧
    (notebooks.all fun nb => (runMethodCalls nb.stmts).all fun rm =>
        observationalRunMethods.contains rm.2 &&
        !(runStateTransitionMethods.contains rm.2)) = true := by
  constructor <;> decide

/-- C10: the updated run() of score.py always returns normally: when
model.predict succeeds the prediction is discarded and the constant
message is returned, and when it raises, the error message itself is
returned as the result. -/
theorem claim_C10 {α β : Type} (predict : α → Except String β) (data : α) :
    (∃ s, ScorePy.run predict data = Except.ok s) ∧
    (∀ b, predict data = Except.ok b →
        ScorePy.run predict data = Except.ok ScorePy.successMessage) ∧
    (∀ e, predict data = Except.error e → ScorePy.run predict data = Except.ok e) := by
  refine ⟨?_, ?_, ?_⟩
  · rcases h : predict data with e | b
    · exact ⟨e, by simp [ScorePy.run, h]⟩
    · exact ⟨ScorePy.successMessage, by simp [ScorePy.run, h]⟩
  · intro b hb
    simp [ScorePy.run, hb]
  · intro e he
    simp [ScorePy.run, he]

/-- Witness for C10 at a concrete succeeding predictor and a concrete
failing predictor. -/
theorem claim_C10_witness :
    ScorePy.run (fun _ : Nat => Except.ok (0 : Nat)) 0
        = Except.ok ScorePy.successMessage ∧
    ScorePy.run (fun _ : Nat => (Except.error "boom" : Except String Nat)) 0
        = Except.ok "boom" :=
  ⟨(claim_C10 (fun _ : Nat => Except.ok (0 : Nat)) 0).2.1 0 rfl,
   (claim_C10 (fun _ : Nat => (Except.error "boom" : Except String Nat)) 0).2.2 "boom" rfl⟩
